import Mathlib

/-!
Shallow embedding of `homeassistant/components/strava/__init__.py`: the
account session (`StravaData`) with its OAuth2 token lifecycle, and the
three throttled resource data holders (`StravaAthleteData`,
`StravaGearData`, `StravaClubData`).

Conventions of the embedding:
* Python `datetime` values are wrapped unix timestamps (`Datetime`); the
  current time is passed in explicitly wherever the source calls
  `datetime.now()`.
* Exceptions are modelled with `Except PyError` / an `Option PyError`
  error slot; Python operations that raise (adding an `int` to a
  `datetime`, `next()` on an exhausted iterator, subscripting `None`)
  return the corresponding error.
* External collaborators (the stravalib client, the token store, the
  executor) are supplied as explicit environment records; a network call
  that can fail is a field of type `Except PyError _`.
* Mutation of `self` becomes explicit state passing; calls that matter to
  the spec (refresh, request_token, store saves, configurator
  request_done, the trailing `async_setup`) are counted in result records.
-/

set_option autoImplicit false

namespace Strava

/-- Python exception kinds raised on the embedded code paths. -/
inductive PyError where
  | typeError
  | stopIteration
  deriving DecidableEq

/-- OAuth2 token record `{access_token, refresh_token, expires_at}` as held in
`self._token` and in the token store. -/
structure Token where
  access_token : String
  refresh_token : String
  expires_at : Int
  deriving DecidableEq

/-- A Python `datetime` value, identified by its unix timestamp. -/
structure Datetime where
  ts : Int
  deriving DecidableEq

/-- `datetime.datetime.fromtimestamp`. -/
def Datetime.fromtimestamp (t : Int) : Datetime := ⟨t⟩

/-- `datetime.datetime.now()`, with the current unix timestamp passed in. -/
def Datetime.now (nowTs : Int) : Datetime := ⟨nowTs⟩

/-- Python `datetime + int`: the operand types are unsupported, so the
addition raises `TypeError` (line 112 of the source evaluates
`datetime.now() + 300`). -/
def Datetime.addInt (_ : Datetime) (_ : Int) : Except PyError Datetime :=
  .error .typeError

/-- Python `a < b` on two datetimes. -/
def Datetime.isBefore (a b : Datetime) : Bool := a.ts < b.ts

/-- Python `a > b` on two datetimes. -/
def Datetime.isAfter (a b : Datetime) : Bool := b.ts < a.ts

/-- The stravalib `Client` adapter state this module touches: its installed
`access_token` attribute (`None` right after construction). -/
structure Client where
  access_token : Option String
  deriving DecidableEq

/-- A Pending Authorization handle (`self._configurator`): the host
configurator entry created by `request_token`, carrying the authorization
link URL shown to the user. -/
structure Configurator where
  link_url : String
  deriving DecidableEq

/-- Payload of `client.get_activities(limit=1)` items (activity summary). -/
structure Activity where
  id : Int
  deriving DecidableEq

/-- Payload of `client.get_activity(id, True)` (detailed activity). -/
structure DetailedActivity where
  id : Int
  deriving DecidableEq

/-- Payload of `client.get_athlete(id)`. -/
structure AthleteDetail where
  id : Int
  deriving DecidableEq

/-- Payload of `client.get_athlete_stats(id)`. -/
structure AthleteStats where
  id : Int
  deriving DecidableEq

/-- Payload of `client.get_gear(id)`. -/
structure Gear where
  id : Int
  deriving DecidableEq

/-- Payload of `client.get_club(id)`. -/
structure Club where
  id : Int
  deriving DecidableEq

/-- `MIN_TIME_BETWEEN_UPDATES = timedelta(seconds=10)`, in seconds. -/
def MIN_TIME_BETWEEN_UPDATES : Int := 10

/-- `AUTH_CALLBACK_PATH = '/api/strava'`. -/
def AUTH_CALLBACK_PATH : String := "/api/strava"

/-- Athlete resource data holder (`StravaAthleteData`): the external id and
the three cached fields, all `None` after `__init__`. The Python object
also keeps a back-reference `self.data` to the owning session, which the
embedding passes explicitly. `last_update` is the holder's throttle
timestamp; modelled from the spec, since the `Throttle` decorator
(`homeassistant.util`) is not under src/. -/
structure StravaAthleteData where
  id : Int
  details : Option AthleteDetail
  stats : Option AthleteStats
  last_activity : Option DetailedActivity
  last_update : Option Int
  deriving DecidableEq

/-- Gear resource data holder (`StravaGearData`). -/
structure StravaGearData where
  id : Int
  gear : Option Gear
  last_update : Option Int
  deriving DecidableEq

/-- Club resource data holder (`StravaClubData`). -/
structure StravaClubData where
  id : Int
  club : Option Club
  last_update : Option Int
  deriving DecidableEq

/-- The account session (`StravaData`): client adapter, pending
authorization handle, held token, configured credentials, and the three
holder registries. The registries are Python dicts, modelled as
insertion-ordered association lists. -/
structure StravaData where
  client : Client
  configurator : Option Configurator
  token : Option Token
  client_id : String
  client_secret : String
  athletes : List (Int × StravaAthleteData)
  gears : List (Int × StravaGearData)
  clubs : List (Int × StravaClubData)
  deriving DecidableEq

/-- `StravaData.__init__`: fresh client, no configurator, no token, empty
registries. -/
def StravaData.init (client_id client_secret : String) : StravaData where
  client := ⟨none⟩
  configurator := none
  token := none
  client_id := client_id
  client_secret := client_secret
  athletes := []
  gears := []
  clubs := []

/-- `is_authorized`: `self._token is not None`. -/
def StravaData.is_authorized (s : StravaData) : Bool :=
  s.token.isSome

/-- `is_token_valid`: returns `False` when unauthorized; otherwise evaluates
`datetime.fromtimestamp(expires_at) > datetime.now() + 300`, whose
right-hand side adds an `int` to a `datetime` and hence raises. -/
def StravaData.is_token_valid (s : StravaData) (now : Int) : Except PyError Bool :=
  match s.token with
  | none => .ok false
  | some tok => do
      let expires_at := Datetime.fromtimestamp tok.expires_at
      let bound ← Datetime.addInt (Datetime.now now) 300
      if expires_at.isAfter bound then return true
      return false

/-- Environment for token-lifecycle calls: the store contents returned by
`store.async_load()`, the current time, the hub base URL, and the client
adapter's `refresh_access_token(client_id, client_secret, refresh_token)`
(success case; a network failure would propagate unhandled). -/
structure TokenEnv where
  storeLoad : Option Token
  now : Int
  base_url : String
  refresh_access_token : String → String → String → Token

/-- stravalib `Client.authorization_url(client_id=..., redirect_uri=...)`:
the provider authorization URL built from the two arguments (external SDK
call). -/
def authorization_url (client_id redirect_uri : String) : String :=
  "https://www.strava.com/oauth/authorize?client_id=" ++ client_id ++
    "&redirect_uri=" ++ redirect_uri

/-- `request_token`: builds the callback URL from the hub base URL and
`AUTH_CALLBACK_PATH`, asks the adapter for the authorization URL using the
configured client id, and stores the resulting configurator handle as the
Pending Authorization. -/
def StravaData.request_token (s : StravaData) (env : TokenEnv) : StravaData :=
  let callback_url := env.base_url ++ AUTH_CALLBACK_PATH
  let authorize_url := authorization_url s.client_id callback_url
  { s with configurator := some ⟨authorize_url⟩ }

/-- `refresh_token`: exchanges `self._token['refresh_token']` for a new
token via the adapter and persists it; subscripting a `None` token would
raise. Returns the new state and the list of store saves performed. -/
def StravaData.refresh_token (s : StravaData) (env : TokenEnv) :
    Except PyError (StravaData × List (Option Token)) :=
  match s.token with
  | none => .error .typeError
  | some tok =>
      let newTok := env.refresh_access_token s.client_id s.client_secret tok.refresh_token
      .ok ({ s with token := some newTok }, [some newTok])

/-- Result of one `get_token()` call: the new session state and the calls
it made. -/
structure GetTokenResult where
  state : StravaData
  refreshCalls : Nat
  requestTokenCalls : Nat
  storeSaves : List (Option Token)
  deriving DecidableEq

/-- The tail of `get_token` (lines 138-140): compare
`datetime.fromtimestamp(self._token['expires_at'])` with `datetime.now()`
and refresh when strictly past. -/
def StravaData.check_expiry (s : StravaData) (env : TokenEnv) :
    Except PyError GetTokenResult :=
  match s.token with
  | none => .error .typeError
  | some tok =>
      let expires_at := Datetime.fromtimestamp tok.expires_at
      if expires_at.isBefore (Datetime.now env.now) then
        match s.refresh_token env with
        | .error e => .error e
        | .ok (s2, saves) =>
            .ok { state := s2, refreshCalls := 1, requestTokenCalls := 0, storeSaves := saves }
      else
        .ok { state := s, refreshCalls := 0, requestTokenCalls := 0, storeSaves := [] }

/-- `get_token()`: when unauthorized, load the persisted token; if one was
found install its access token on the client adapter, otherwise call
`request_token` and return. In all remaining cases fall through to the
expiry check. -/
def StravaData.get_token (s : StravaData) (env : TokenEnv) :
    Except PyError GetTokenResult :=
  if s.is_authorized then
    s.check_expiry env
  else
    let s1 := { s with token := env.storeLoad }
    match env.storeLoad with
    | some tok =>
        let s2 := { s1 with client := { s1.client with access_token := some tok.access_token } }
        s2.check_expiry env
    | none =>
        .ok { state := s1.request_token env, refreshCalls := 0,
              requestTokenCalls := 1, storeSaves := [] }

/-- Result of one `authorize(code)` call: the new session state, the store
saves, and how often `configurator.request_done` and the trailing
`async_setup` ran. -/
structure AuthorizeResult where
  state : StravaData
  storeSaves : List (Option Token)
  requestDoneCalls : Nat
  setupCalls : Nat
  deriving DecidableEq

/-- `authorize(code)`: exchange the code for a token via
`client.exchange_code_for_token(client_id, client_secret, code)` (passed in
as `exchange`; `none` models a falsy/empty result), install and persist the
result, and when authorized signal `request_done` on the configurator and
delete it (`del self._configurator`, modelled as `none`). The trailing
`await async_setup(hass, self._config)` constructs a fresh session object
and replaces `hass.data[DOMAIN]`; it does not touch this session object and
is recorded as one `setupCalls` event. -/
def StravaData.authorize (s : StravaData)
    (exchange : String → String → String → Option Token) (code : String) :
    AuthorizeResult :=
  let newTok := exchange s.client_id s.client_secret code
  let s1 := { s with token := newTok }
  if s1.is_authorized then
    { state := { s1 with configurator := none }, storeSaves := [newTok],
      requestDoneCalls := 1, setupCalls := 1 }
  else
    { state := s1, storeSaves := [newTok], requestDoneCalls := 0, setupCalls := 1 }

/-- Python dict membership plus subscript read on the holder registries. -/
def dictLookup {α : Type} : List (Int × α) → Int → Option α
  | [], _ => none
  | (k, v) :: rest, i => if k = i then some v else dictLookup rest i

/-- Python dict subscript assignment on the holder registries. -/
def dictInsert {α : Type} : List (Int × α) → Int → α → List (Int × α)
  | [], i, v => [(i, v)]
  | (k, w) :: rest, i, v =>
      if k = i then (i, v) :: rest else (k, w) :: dictInsert rest i v

/-- `get_athlete(id)`: create and register a fresh holder when `id` is not
in the registry, then return the registered holder. -/
def StravaData.get_athlete (s : StravaData) (i : Int) :
    StravaData × StravaAthleteData :=
  match dictLookup s.athletes i with
  | some h => (s, h)
  | none =>
      let h : StravaAthleteData := ⟨i, none, none, none, none⟩
      ({ s with athletes := dictInsert s.athletes i h }, h)

/-- `get_gear(id)`: create and register a fresh holder when `id` is not in
the registry, then return the registered holder. -/
def StravaData.get_gear (s : StravaData) (i : Int) :
    StravaData × StravaGearData :=
  match dictLookup s.gears i with
  | some h => (s, h)
  | none =>
      let h : StravaGearData := ⟨i, none, none⟩
      ({ s with gears := dictInsert s.gears i h }, h)

/-- `get_club(id)`: create and register a fresh holder when `id` is not in
the registry, then return the registered holder. -/
def StravaData.get_club (s : StravaData) (i : Int) :
    StravaData × StravaClubData :=
  match dictLookup s.clubs i with
  | some h => (s, h)
  | none =>
      let h : StravaClubData := ⟨i, none, none⟩
      ({ s with clubs := dictInsert s.clubs i h }, h)

/-- Modelled from the spec: the `Throttle` decorator (`homeassistant.util`)
is not under src/. Per the spec, a throttled `update()` executes at most
once per `MIN_TIME_BETWEEN_UPDATES` window per holder instance: a call is
allowed when the holder was never updated or its last executed call is at
least the window in the past; otherwise it is suppressed as a no-op. -/
def throttleAllows (last_update : Option Int) (now : Int) : Bool :=
  match last_update with
  | none => true
  | some t => decide (t + MIN_TIME_BETWEEN_UPDATES ≤ now)

/-- Environment for the athlete fan-out: the four client adapter calls the
three sub-updates make. `get_activities` is the materialized contents of
the `client.get_activities(limit=1)` iterator (or the error it raised). -/
structure AthleteFetchEnv where
  get_activities : Except PyError (List Activity)
  get_activity : Int → Except PyError DetailedActivity
  get_athlete : Int → Except PyError AthleteDetail
  get_athlete_stats : Int → Except PyError AthleteStats

/-- The inner `get_last_activity(client)` of `update_last_actitivity`:
`next()` on the activities iterator raises `StopIteration` when the athlete
has no activities, otherwise the detailed activity of the first item is
fetched. -/
def get_last_activity (env : AthleteFetchEnv) : Except PyError DetailedActivity :=
  match env.get_activities with
  | .error e => .error e
  | .ok [] => .error .stopIteration
  | .ok (last :: _) => env.get_activity last.id

/-- `update_last_actitivity` (sic): on success the `last_activity` field is
overwritten; on failure the field keeps its previous value and the error
propagates out of this coroutine. -/
def StravaAthleteData.update_last_actitivity (h : StravaAthleteData)
    (env : AthleteFetchEnv) : StravaAthleteData × Option PyError :=
  match get_last_activity env with
  | .ok v => ({ h with last_activity := some v }, none)
  | .error e => (h, some e)

/-- `update_details`: `client.get_athlete(self.id)` into `self.details`. -/
def StravaAthleteData.update_details (h : StravaAthleteData)
    (env : AthleteFetchEnv) : StravaAthleteData × Option PyError :=
  match env.get_athlete h.id with
  | .ok v => ({ h with details := some v }, none)
  | .error e => (h, some e)

/-- `update_stats`: `client.get_athlete_stats(self.id)` into `self.stats`. -/
def StravaAthleteData.update_stats (h : StravaAthleteData)
    (env : AthleteFetchEnv) : StravaAthleteData × Option PyError :=
  match env.get_athlete_stats h.id with
  | .ok v => ({ h with stats := some v }, none)
  | .error e => (h, some e)

/-- The `asyncio.gather` fan-out inside athlete `update()`: all three
sub-coroutines run to completion (gather does not cancel the remaining
tasks when one raises), each successful one overwriting its own cached
field; gather re-raises a sub-error when any sub-fetch failed. The three
touch disjoint fields, so running them in sequence is state-equivalent to
the cooperative interleaving. -/
def StravaAthleteData.update_gather (h : StravaAthleteData)
    (env : AthleteFetchEnv) : StravaAthleteData × Option PyError :=
  let r1 := h.update_last_actitivity env
  let r2 := r1.fst.update_details env
  let r3 := r2.fst.update_stats env
  (r3.fst, r1.snd <|> r2.snd <|> r3.snd)

/-- Result of one athlete `update()` call: the owning session, the holder,
whether the throttled body ran (`ran = false` means the call was suppressed
by the throttle), whether the underlying resource fetches were issued, and
the exception propagated to the caller (if any). -/
structure AthleteUpdateResult where
  session : StravaData
  holder : StravaAthleteData
  ran : Bool
  fetched : Bool
  error : Option PyError
  deriving DecidableEq

/-- Athlete `update()` under `@Throttle(MIN_TIME_BETWEEN_UPDATES)`: a call
inside the throttle window is a no-op; otherwise the body awaits
`self.data.get_token()` and then the three-way fan-out. Field writes by
sub-fetches that succeeded persist even when the gather re-raises. -/
def StravaAthleteData.update (h : StravaAthleteData) (tenv : TokenEnv)
    (env : AthleteFetchEnv) (now : Int) (s : StravaData) : AthleteUpdateResult :=
  if throttleAllows h.last_update now then
    match s.get_token tenv with
    | .error e =>
        { session := s, holder := { h with last_update := some now },
          ran := true, fetched := false, error := some e }
    | .ok r =>
        let g := ({ h with last_update := some now } : StravaAthleteData).update_gather env
        { session := r.state, holder := g.fst, ran := true, fetched := true,
          error := g.snd }
  else
    { session := s, holder := h, ran := false, fetched := false, error := none }

/-- Result of one gear `update()` call; `ran = false` means the call was
suppressed by the throttle, and `fetched` records whether the underlying
resource fetch was issued. -/
structure GearUpdateResult where
  session : StravaData
  holder : StravaGearData
  ran : Bool
  fetched : Bool
  error : Option PyError
  deriving DecidableEq

/-- Gear `update()` under the throttle: await `get_token()` then
`client.get_gear(self.id)` into `self.gear`; on fetch failure the cached
field keeps its previous value. -/
def StravaGearData.update (h : StravaGearData) (tenv : TokenEnv)
    (api : Int → Except PyError Gear) (now : Int) (s : StravaData) :
    GearUpdateResult :=
  if throttleAllows h.last_update now then
    match s.get_token tenv with
    | .error e =>
        { session := s, holder := { h with last_update := some now },
          ran := true, fetched := false, error := some e }
    | .ok r =>
        match api h.id with
        | .ok g =>
            { session := r.state,
              holder := { h with gear := some g, last_update := some now },
              ran := true, fetched := true, error := none }
        | .error e =>
            { session := r.state, holder := { h with last_update := some now },
              ran := true, fetched := true, error := some e }
  else
    { session := s, holder := h, ran := false, fetched := false, error := none }

/-- Result of one club `update()` call. -/
structure ClubUpdateResult where
  session : StravaData
  holder : StravaClubData
  ran : Bool
  fetched : Bool
  error : Option PyError
  deriving DecidableEq

/-- Club `update()` under the throttle: await `get_token()` then
`client.get_club(self.id)` into `self.club`. -/
def StravaClubData.update (h : StravaClubData) (tenv : TokenEnv)
    (api : Int → Except PyError Club) (now : Int) (s : StravaData) :
    ClubUpdateResult :=
  if throttleAllows h.last_update now then
    match s.get_token tenv with
    | .error e =>
        { session := s, holder := { h with last_update := some now },
          ran := true, fetched := false, error := some e }
    | .ok r =>
        match api h.id with
        | .ok c =>
            { session := r.state,
              holder := { h with club := some c, last_update := some now },
              ran := true, fetched := true, error := none }
        | .error e =>
            { session := r.state, holder := { h with last_update := some now },
              ran := true, fetched := true, error := some e }
  else
    { session := s, holder := h, ran := false, fetched := false, error := none }

/-- Whether an embedded Python call returned normally. -/
def exceptOk {α : Type} : Except PyError α → Bool
  | .ok _ => true
  | .error _ => false

/-! Helper lemmas shared by the claim theorems. -/

/-- Lookup after insert at the inserted key. -/
theorem dictLookup_dictInsert_self {α : Type} (l : List (Int × α)) (k : Int) (v : α) :
    dictLookup (dictInsert l k v) k = some v := by
  induction l with
  | nil => simp [dictInsert, dictLookup]
  | cons p rest ih =>
      obtain ⟨a, b⟩ := p
      by_cases hak : a = k <;> simp [dictInsert, dictLookup, hak, ih]

/-- Lookup after insert at a different key. -/
theorem dictLookup_dictInsert_ne {α : Type} (l : List (Int × α)) (k j : Int) (v : α)
    (hjk : j ≠ k) : dictLookup (dictInsert l k v) j = dictLookup l j := by
  induction l with
  | nil => simp [dictInsert, dictLookup, Ne.symm hjk]
  | cons p rest ih =>
      obtain ⟨a, b⟩ := p
      by_cases hak : a = k
      · subst hak
        simp [dictInsert, dictLookup, hjk, Ne.symm hjk]
      · by_cases haj : a = j <;>
          simp [dictInsert, dictLookup, hak, haj, hjk, Ne.symm hjk, ih]

/-- Shape of `check_expiry` when a token is held: it succeeds, refreshes
exactly when the expiry is strictly past, makes no `request_token` call,
and leaves the client adapter and configurator untouched. -/
theorem check_expiry_spec (s : StravaData) (env : TokenEnv) (tok : Token)
    (htok : s.token = some tok) :
    ∃ r, s.check_expiry env = .ok r ∧
      r.refreshCalls = (if tok.expires_at < env.now then 1 else 0) ∧
      r.requestTokenCalls = 0 ∧
      r.state.client = s.client ∧
      r.state.configurator = s.configurator ∧
      r.state.token.isSome = true := by
  by_cases hlt : tok.expires_at < env.now
  · have heq : s.check_expiry env = .ok { state := { s with token := some (env.refresh_access_token s.client_id s.client_secret tok.refresh_token) }, refreshCalls := 1, requestTokenCalls := 0, storeSaves := [some (env.refresh_access_token s.client_id s.client_secret tok.refresh_token)] } := by
      simp [StravaData.check_expiry, htok, Datetime.isBefore, Datetime.fromtimestamp,
        Datetime.now, hlt, StravaData.refresh_token]
    refine ⟨_, heq, ?_, ?_, ?_, ?_, ?_⟩ <;> simp [hlt]
  · have heq : s.check_expiry env = .ok { state := s, refreshCalls := 0, requestTokenCalls := 0, storeSaves := [] } := by
      simp [StravaData.check_expiry, htok, Datetime.isBefore, Datetime.fromtimestamp,
        Datetime.now, hlt]
    refine ⟨_, heq, ?_, ?_, ?_, ?_, ?_⟩ <;> simp [hlt, htok]

/-- Suppression window of the modelled throttle. -/
theorem throttleAllows_within (t1 t2 : Int) (h : t2 < t1 + MIN_TIME_BETWEEN_UPDATES) :
    throttleAllows (some t1) t2 = false := by
  simp [throttleAllows, MIN_TIME_BETWEEN_UPDATES] at h ⊢
  omega

/-! Claim theorems. -/

/-- C2: whenever a token is held, `is_token_valid` raises `TypeError`
instead of returning a boolean, because line 112 evaluates
`datetime.now() + 300`, an unsupported addition of a `datetime` and an
`int`; the documented True/False contract is only met in the unauthorized
branch. -/
theorem c2_is_token_valid_raises (s : StravaData) (now : Int) (tok : Token)
    (htok : s.token = some tok) :
    s.is_token_valid now = .error .typeError ∧
    ({ s with token := none } : StravaData).is_token_valid now = .ok false := by
  constructor
  · simp [StravaData.is_token_valid, htok, Datetime.addInt, bind, Except.bind]
  · simp [StravaData.is_token_valid]

/-- C2 witness: evaluated at a concrete session holding a token. -/
theorem c2_is_token_valid_raises_witness :
    (({ StravaData.init "abc" "xyz" with token := some ⟨"a", "r", 0⟩ } :
        StravaData).is_token_valid 100 = .error .typeError) ∧
    (({ StravaData.init "abc" "xyz" with token := none } :
        StravaData).is_token_valid 100 = .ok false) := by
  have h := c2_is_token_valid_raises
    ({ StravaData.init "abc" "xyz" with token := some ⟨"a", "r", 0⟩ }) 100
    ⟨"a", "r", 0⟩ rfl
  exact ⟨h.1, h.2⟩

/-- C5: when the code exchange returns a token, `authorize` leaves the
session authorized, saves exactly that token to the store, signals
`request_done` once, and clears the pending configurator. -/
theorem c5_authorize_success (s : StravaData)
    (exchange : String → String → String → Option Token) (code : String) (t : Token)
    (hex : exchange s.client_id s.client_secret code = some t) :
    (s.authorize exchange code).state.is_authorized = true ∧
    (s.authorize exchange code).state.token = some t ∧
    (s.authorize exchange code).storeSaves = [some t] ∧
    (s.authorize exchange code).requestDoneCalls = 1 ∧
    (s.authorize exchange code).state.configurator = none := by
  refine ⟨?_, ?_, ?_, ?_, ?_⟩ <;>
    simp [StravaData.authorize, hex, StravaData.is_authorized]

/-- C5 witness: evaluated at a concrete exchange returning a token. -/
theorem c5_authorize_success_witness :
    ((StravaData.init "abc" "xyz").authorize
        (fun _ _ _ => some ⟨"a", "r", 50⟩) "CODE123").state.token =
      some ⟨"a", "r", 50⟩ :=
  (c5_authorize_success (StravaData.init "abc" "xyz")
    (fun _ _ _ => some ⟨"a", "r", 50⟩) "CODE123" ⟨"a", "r", 50⟩ rfl).2.1

/-- C9: when the code exchange returns an empty result, `authorize` still
overwrites the persisted record with the empty value, does not signal or
clear the pending configurator, drops the held token, and still re-runs
the top-level setup sequence. -/
theorem c9_authorize_empty (s : StravaData)
    (exchange : String → String → String → Option Token) (code : String)
    (hex : exchange s.client_id s.client_secret code = none) :
    (s.authorize exchange code).storeSaves = [none] ∧
    (s.authorize exchange code).state.token = none ∧
    (s.authorize exchange code).requestDoneCalls = 0 ∧
    (s.authorize exchange code).state.configurator = s.configurator ∧
    (s.authorize exchange code).setupCalls = 1 := by
  refine ⟨?_, ?_, ?_, ?_, ?_⟩ <;>
    simp [StravaData.authorize, hex, StravaData.is_authorized]

/-- C9 witness: evaluated at a concrete session with a pending
configurator, a previously held token, and an exchange returning nothing. -/
theorem c9_authorize_empty_witness :
    (({ StravaData.init "abc" "xyz" with
          token := some ⟨"a", "r", 9⟩
          configurator := some ⟨"url"⟩ } : StravaData).authorize
        (fun _ _ _ => none) "BADCODE").storeSaves = [none] ∧
    (({ StravaData.init "abc" "xyz" with
          token := some ⟨"a", "r", 9⟩
          configurator := some ⟨"url"⟩ } : StravaData).authorize
        (fun _ _ _ => none) "BADCODE").state.configurator = some ⟨"url"⟩ := by
  have h := c9_authorize_empty
    ({ StravaData.init "abc" "xyz" with
        token := some ⟨"a", "r", 9⟩
        configurator := some ⟨"url"⟩ }) (fun _ _ _ => none) "BADCODE" rfl
  exact ⟨h.1, h.2.2.2.1⟩

/-- C3: a single `get_token()` call on a session that holds a token, or
loads one from the store, succeeds and invokes `refresh_token` exactly once
when the token's `expires_at` is strictly in the past and zero times
otherwise; `request_token` is never reached on this path. -/
theorem c3_get_token_refresh_count (s : StravaData) (env : TokenEnv) (tok : Token)
    (hheld : s.token = some tok ∨ (s.token = none ∧ env.storeLoad = some tok)) :
    ∃ r, s.get_token env = .ok r ∧
      r.refreshCalls = (if tok.expires_at < env.now then 1 else 0) ∧
      r.requestTokenCalls = 0 := by
  rcases hheld with htok | ⟨hno, hload⟩
  · obtain ⟨r, heq, h1, h2, _⟩ := check_expiry_spec s env tok htok
    have hga : s.get_token env = s.check_expiry env := by
      simp [StravaData.get_token, StravaData.is_authorized, htok]
    exact ⟨r, by rw [hga, heq], h1, h2⟩
  · obtain ⟨r, heq, h1, h2, _⟩ := check_expiry_spec ({ s with token := some tok, client := { s.client with access_token := some tok.access_token } }) env tok rfl
    have hga : s.get_token env = ({ s with token := some tok, client := { s.client with access_token := some tok.access_token } } : StravaData).check_expiry env := by
      simp [StravaData.get_token, StravaData.is_authorized, hno, hload]
    exact ⟨r, by rw [hga, heq], h1, h2⟩

/-- C3 witness: a held token expired at time 0, current time 10: exactly
one refresh. -/
theorem c3_get_token_refresh_count_witness :
    ∃ r, ({ StravaData.init "abc" "xyz" with token := some ⟨"a", "r", 0⟩ } : StravaData).get_token
        ⟨none, 10, "http://hub", fun _ _ _ => ⟨"n", "n", 99⟩⟩ = .ok r ∧
      r.refreshCalls = 1 ∧ r.requestTokenCalls = 0 := by
  obtain ⟨r, h1, h2, h3⟩ := c3_get_token_refresh_count
    ({ StravaData.init "abc" "xyz" with token := some ⟨"a", "r", 0⟩ })
    ⟨none, 10, "http://hub", fun _ _ _ => ⟨"n", "n", 99⟩⟩ ⟨"a", "r", 0⟩ (Or.inl rfl)
  refine ⟨r, h1, ?_, h3⟩
  rw [h2]
  norm_num

/-- C6: `get_token()` on an unauthorized session whose store holds nothing
calls `request_token` exactly once, creating a pending configurator whose
link URL is the adapter's authorization URL built from the configured
client id and the hub callback URL; no token is installed (on the session
or the client adapter) and no refresh happens. -/
theorem c6_get_token_requests_authorization (s : StravaData) (env : TokenEnv)
    (hno : s.token = none) (hload : env.storeLoad = none) :
    ∃ r, s.get_token env = .ok r ∧ r.requestTokenCalls = 1 ∧ r.refreshCalls = 0 ∧
      r.state.token = none ∧ r.state.client = s.client ∧
      r.state.configurator =
        some ⟨authorization_url s.client_id (env.base_url ++ AUTH_CALLBACK_PATH)⟩ := by
  have heq : s.get_token env = .ok { state := { s with token := none, configurator := some ⟨authorization_url s.client_id (env.base_url ++ AUTH_CALLBACK_PATH)⟩ }, refreshCalls := 0, requestTokenCalls := 1, storeSaves := [] } := by
    simp [StravaData.get_token, StravaData.is_authorized, hno, hload,
      StravaData.request_token]
  exact ⟨_, heq, rfl, rfl, rfl, rfl, rfl⟩

/-- C6 witness: the spec scenario with client id abc and no persisted
token. -/
theorem c6_get_token_requests_authorization_witness :
    ∃ r, (StravaData.init "abc" "xyz").get_token
        ⟨none, 10, "http://hub", fun _ _ _ => ⟨"n", "n", 99⟩⟩ = .ok r ∧
      r.requestTokenCalls = 1 ∧ r.refreshCalls = 0 ∧ r.state.token = none ∧
      r.state.configurator =
        some ⟨authorization_url "abc" ("http://hub" ++ AUTH_CALLBACK_PATH)⟩ := by
  obtain ⟨r, h1, h2, h3, h4, _, h6⟩ := c6_get_token_requests_authorization
    (StravaData.init "abc" "xyz") ⟨none, 10, "http://hub", fun _ _ _ => ⟨"n", "n", 99⟩⟩
    rfl rfl
  exact ⟨r, h1, h2, h3, h4, h6⟩

/-- Get-or-create behaviour of `get_athlete`. -/
theorem get_athlete_spec (s : StravaData) (i : Int) :
    ((s.get_athlete i).fst.get_athlete i).snd = (s.get_athlete i).snd ∧
    ((s.get_athlete i).fst.get_athlete i).fst = (s.get_athlete i).fst ∧
    dictLookup (s.get_athlete i).fst.athletes i = some (s.get_athlete i).snd ∧
    ∀ j h, dictLookup s.athletes j = some h →
      dictLookup (s.get_athlete i).fst.athletes j = some h := by
  cases hl : dictLookup s.athletes i with
  | some h0 =>
      refine ⟨?_, ?_, ?_, ?_⟩ <;> simp [StravaData.get_athlete, hl]
  | none =>
      refine ⟨?_, ?_, ?_, ?_⟩
      · simp [StravaData.get_athlete, hl, dictLookup_dictInsert_self]
      · simp [StravaData.get_athlete, hl, dictLookup_dictInsert_self]
      · simp [StravaData.get_athlete, hl, dictLookup_dictInsert_self]
      · intro j h hj
        by_cases hji : j = i
        · subst hji
          rw [hl] at hj
          cases hj
        · simp only [StravaData.get_athlete, hl]
          rw [dictLookup_dictInsert_ne _ _ _ _ hji]
          exact hj

/-- Get-or-create behaviour of `get_gear`. -/
theorem get_gear_spec (s : StravaData) (i : Int) :
    ((s.get_gear i).fst.get_gear i).snd = (s.get_gear i).snd ∧
    ((s.get_gear i).fst.get_gear i).fst = (s.get_gear i).fst ∧
    dictLookup (s.get_gear i).fst.gears i = some (s.get_gear i).snd ∧
    ∀ j h, dictLookup s.gears j = some h →
      dictLookup (s.get_gear i).fst.gears j = some h := by
  cases hl : dictLookup s.gears i with
  | some h0 =>
      refine ⟨?_, ?_, ?_, ?_⟩ <;> simp [StravaData.get_gear, hl]
  | none =>
      refine ⟨?_, ?_, ?_, ?_⟩
      · simp [StravaData.get_gear, hl, dictLookup_dictInsert_self]
      · simp [StravaData.get_gear, hl, dictLookup_dictInsert_self]
      · simp [StravaData.get_gear, hl, dictLookup_dictInsert_self]
      · intro j h hj
        by_cases hji : j = i
        · subst hji
          rw [hl] at hj
          cases hj
        · simp only [StravaData.get_gear, hl]
          rw [dictLookup_dictInsert_ne _ _ _ _ hji]
          exact hj

/-- Get-or-create behaviour of `get_club`. -/
theorem get_club_spec (s : StravaData) (i : Int) :
    ((s.get_club i).fst.get_club i).snd = (s.get_club i).snd ∧
    ((s.get_club i).fst.get_club i).fst = (s.get_club i).fst ∧
    dictLookup (s.get_club i).fst.clubs i = some (s.get_club i).snd ∧
    ∀ j h, dictLookup s.clubs j = some h →
      dictLookup (s.get_club i).fst.clubs j = some h := by
  cases hl : dictLookup s.clubs i with
  | some h0 =>
      refine ⟨?_, ?_, ?_, ?_⟩ <;> simp [StravaData.get_club, hl]
  | none =>
      refine ⟨?_, ?_, ?_, ?_⟩
      · simp [StravaData.get_club, hl, dictLookup_dictInsert_self]
      · simp [StravaData.get_club, hl, dictLookup_dictInsert_self]
      · simp [StravaData.get_club, hl, dictLookup_dictInsert_self]
      · intro j h hj
        by_cases hji : j = i
        · subst hji
          rw [hl] at hj
          cases hj
        · simp only [StravaData.get_club, hl]
          rw [dictLookup_dictInsert_ne _ _ _ _ hji]
          exact hj

/-- C7: each of `get_athlete`, `get_gear`, `get_club` is a total
get-or-create accessor: the returned holder is registered under the
requested id, a repeated call returns the same holder and leaves the
session unchanged, and every previously registered holder stays registered
unchanged. -/
theorem c7_get_or_create_idempotent (s : StravaData) (i : Int) :
    (((s.get_athlete i).fst.get_athlete i).snd = (s.get_athlete i).snd ∧
      ((s.get_athlete i).fst.get_athlete i).fst = (s.get_athlete i).fst ∧
      dictLookup (s.get_athlete i).fst.athletes i = some (s.get_athlete i).snd ∧
      ∀ j h, dictLookup s.athletes j = some h →
        dictLookup (s.get_athlete i).fst.athletes j = some h) ∧
    (((s.get_gear i).fst.get_gear i).snd = (s.get_gear i).snd ∧
      ((s.get_gear i).fst.get_gear i).fst = (s.get_gear i).fst ∧
      dictLookup (s.get_gear i).fst.gears i = some (s.get_gear i).snd ∧
      ∀ j h, dictLookup s.gears j = some h →
        dictLookup (s.get_gear i).fst.gears j = some h) ∧
    (((s.get_club i).fst.get_club i).snd = (s.get_club i).snd ∧
      ((s.get_club i).fst.get_club i).fst = (s.get_club i).fst ∧
      dictLookup (s.get_club i).fst.clubs i = some (s.get_club i).snd ∧
      ∀ j h, dictLookup s.clubs j = some h →
        dictLookup (s.get_club i).fst.clubs j = some h) :=
  ⟨get_athlete_spec s i, get_gear_spec s i, get_club_spec s i⟩

/-- C7 witness: a session already holding athlete 1 and gear 2; requesting
athlete 5 registers it, keeps athlete 1 registered, and a second request
returns the same holder. -/
theorem c7_get_or_create_idempotent_witness :
    ((({ StravaData.init "abc" "xyz" with
          athletes := [(1, ⟨1, none, none, none, none⟩)]
          gears := [(2, ⟨2, none, none⟩)] } : StravaData).get_athlete 5).fst.get_athlete 5).snd =
      (({ StravaData.init "abc" "xyz" with
          athletes := [(1, ⟨1, none, none, none, none⟩)]
          gears := [(2, ⟨2, none, none⟩)] } : StravaData).get_athlete 5).snd ∧
    dictLookup (({ StravaData.init "abc" "xyz" with
          athletes := [(1, ⟨1, none, none, none, none⟩)]
          gears := [(2, ⟨2, none, none⟩)] } : StravaData).get_athlete 5).fst.athletes 1 =
      some ⟨1, none, none, none, none⟩ := by
  have h := c7_get_or_create_idempotent
    ({ StravaData.init "abc" "xyz" with
        athletes := [(1, ⟨1, none, none, none, none⟩)]
        gears := [(2, ⟨2, none, none⟩)] }) 5
  exact ⟨h.1.1, h.1.2.2.2 1 ⟨1, none, none, none, none⟩ rfl⟩

/-- C8: the client adapter's installed `access_token` is written only by
the load-from-store branch of `get_token()`. `refresh_token` and
`authorize` replace the session token and persist it but leave
`client.access_token` unchanged; `get_token` leaves it unchanged on the
already-authorized and the nothing-persisted paths, and sets it to the
loaded token's access token exactly on the load branch. -/
theorem c8_client_access_token_frame (s : StravaData) (env : TokenEnv)
    (exchange : String → String → String → Option Token) (code : String) :
    (∀ s2 saves, s.refresh_token env = .ok (s2, saves) → s2.client = s.client) ∧
    (s.authorize exchange code).state.client = s.client ∧
    (∀ r, s.get_token env = .ok r →
      (s.token.isSome = true → r.state.client = s.client) ∧
      (s.token = none → env.storeLoad = none → r.state.client = s.client) ∧
      (∀ tok, s.token = none → env.storeLoad = some tok →
        r.state.client = { s.client with access_token := some tok.access_token })) := by
  refine ⟨?_, ?_, ?_⟩
  · intro s2 saves h
    cases htok : s.token with
    | none => simp [StravaData.refresh_token, htok] at h
    | some t =>
        simp [StravaData.refresh_token, htok] at h
        rw [← h.1]
  · cases hex : exchange s.client_id s.client_secret code <;>
      simp [StravaData.authorize, hex, StravaData.is_authorized]
  · intro r h
    cases htok : s.token with
    | some t =>
        have hga : s.get_token env = s.check_expiry env := by
          simp [StravaData.get_token, StravaData.is_authorized, htok]
        obtain ⟨r0, heq, _, _, hclient, _, _⟩ := check_expiry_spec s env t htok
        rw [hga, heq] at h
        have hr : r0 = r := by
          cases h
          rfl
        refine ⟨fun _ => ?_, fun hcontra _ => ?_, fun tok hcontra _ => ?_⟩
        · rw [← hr]
          exact hclient
        · simp at hcontra
        · simp at hcontra
    | none =>
        cases hload : env.storeLoad with
        | none =>
            have hga : s.get_token env = .ok { state := { s with token := none, configurator := some ⟨authorization_url s.client_id (env.base_url ++ AUTH_CALLBACK_PATH)⟩ }, refreshCalls := 0, requestTokenCalls := 1, storeSaves := [] } := by
              simp [StravaData.get_token, StravaData.is_authorized, htok, hload,
                StravaData.request_token]
            rw [hga] at h
            have hr : r.state.client = s.client := by
              cases h
              rfl
            refine ⟨?_, fun _ _ => hr, fun tok _ hcontra => ?_⟩
            · intro hcontra
              simp at hcontra
            · simp at hcontra
        | some tok0 =>
            have hga : s.get_token env = ({ s with token := some tok0, client := { s.client with access_token := some tok0.access_token } } : StravaData).check_expiry env := by
              simp [StravaData.get_token, StravaData.is_authorized, htok, hload]
            obtain ⟨r0, heq, _, _, hclient, _, _⟩ := check_expiry_spec ({ s with token := some tok0, client := { s.client with access_token := some tok0.access_token } }) env tok0 rfl
            rw [hga, heq] at h
            have hr : r0 = r := by
              cases h
              rfl
            refine ⟨fun hcontra => ?_, fun _ hcontra => ?_, fun tok _ hl2 => ?_⟩
            · simp at hcontra
            · simp at hcontra
            · have htt : tok = tok0 := by
                injection hl2 with h2
                exact h2.symm
              rw [htt, ← hr]
              exact hclient

/-- C8 witness: loading a stored token installs its access token on the
client adapter. -/
theorem c8_client_access_token_frame_witness :
    (StravaData.init "abc" "xyz").get_token ⟨some ⟨"ld", "lr", 99⟩, 10, "u", fun _ _ _ => ⟨"n", "nr", 99⟩⟩ = Except.ok { state := { StravaData.init "abc" "xyz" with token := some ⟨"ld", "lr", 99⟩, client := ⟨some "ld"⟩ }, refreshCalls := 0, requestTokenCalls := 0, storeSaves := [] } ∧
    ({ state := { StravaData.init "abc" "xyz" with token := some ⟨"ld", "lr", 99⟩, client := ⟨some "ld"⟩ }, refreshCalls := 0, requestTokenCalls := 0, storeSaves := [] } : GetTokenResult).state.client = { (StravaData.init "abc" "xyz").client with access_token := some "ld" } := by
  have h := c8_client_access_token_frame (StravaData.init "abc" "xyz")
    ⟨some ⟨"ld", "lr", 99⟩, 10, "u", fun _ _ _ => ⟨"n", "nr", 99⟩⟩ (fun _ _ _ => none) "c"
  have heq : (StravaData.init "abc" "xyz").get_token ⟨some ⟨"ld", "lr", 99⟩, 10, "u", fun _ _ _ => ⟨"n", "nr", 99⟩⟩ = Except.ok { state := { StravaData.init "abc" "xyz" with token := some ⟨"ld", "lr", 99⟩, client := ⟨some "ld"⟩ }, refreshCalls := 0, requestTokenCalls := 0, storeSaves := [] } := rfl
  exact ⟨heq, (h.2.2 _ heq).2.2 ⟨"ld", "lr", 99⟩ rfl rfl⟩

/-- Frame of the athlete fan-out: the gather never touches the holder's id
or throttle timestamp. -/
theorem update_gather_frame (env : AthleteFetchEnv) (h : StravaAthleteData) :
    (h.update_gather env).fst.last_update = h.last_update ∧
    (h.update_gather env).fst.id = h.id := by
  cases h1 : get_last_activity env <;> cases h2 : env.get_athlete h.id <;>
    cases h3 : env.get_athlete_stats h.id <;>
      simp [StravaAthleteData.update_gather, StravaAthleteData.update_last_actitivity,
        StravaAthleteData.update_details, StravaAthleteData.update_stats, h1, h2, h3]

/-- An athlete `update()` call inside the throttle window is a no-op. -/
theorem athlete_update_suppressed (h : StravaAthleteData) (tenv : TokenEnv)
    (fenv : AthleteFetchEnv) (now : Int) (s : StravaData)
    (hcond : throttleAllows h.last_update now = false) :
    h.update tenv fenv now s = ⟨s, h, false, false, none⟩ := by
  simp [StravaAthleteData.update, hcond]

/-- An athlete `update()` call outside the throttle window runs and stamps
the holder with the call time. -/
theorem athlete_update_ran (h : StravaAthleteData) (tenv : TokenEnv)
    (fenv : AthleteFetchEnv) (now : Int) (s : StravaData)
    (hcond : throttleAllows h.last_update now = true) :
    (h.update tenv fenv now s).ran = true ∧
    (h.update tenv fenv now s).holder.last_update = some now := by
  cases hgt : s.get_token tenv with
  | error e => simp [StravaAthleteData.update, hcond, hgt]
  | ok r =>
      refine ⟨?_, ?_⟩
      · simp [StravaAthleteData.update, hcond, hgt]
      · simp [StravaAthleteData.update, hcond, hgt,
          (update_gather_frame fenv ({ h with last_update := some now })).1]

/-- A gear `update()` call inside the throttle window is a no-op. -/
theorem gear_update_suppressed (h : StravaGearData) (tenv : TokenEnv)
    (api : Int → Except PyError Gear) (now : Int) (s : StravaData)
    (hcond : throttleAllows h.last_update now = false) :
    h.update tenv api now s = ⟨s, h, false, false, none⟩ := by
  simp [StravaGearData.update, hcond]

/-- A gear `update()` call outside the throttle window runs and stamps the
holder with the call time. -/
theorem gear_update_ran (h : StravaGearData) (tenv : TokenEnv)
    (api : Int → Except PyError Gear) (now : Int) (s : StravaData)
    (hcond : throttleAllows h.last_update now = true) :
    (h.update tenv api now s).ran = true ∧
    (h.update tenv api now s).holder.last_update = some now := by
  cases hgt : s.get_token tenv with
  | error e => simp [StravaGearData.update, hcond, hgt]
  | ok r => cases hapi : api h.id <;> simp [StravaGearData.update, hcond, hgt, hapi]

/-- A club `update()` call inside the throttle window is a no-op. -/
theorem club_update_suppressed (h : StravaClubData) (tenv : TokenEnv)
    (api : Int → Except PyError Club) (now : Int) (s : StravaData)
    (hcond : throttleAllows h.last_update now = false) :
    h.update tenv api now s = ⟨s, h, false, false, none⟩ := by
  simp [StravaClubData.update, hcond]

/-- A club `update()` call outside the throttle window runs and stamps the
holder with the call time. -/
theorem club_update_ran (h : StravaClubData) (tenv : TokenEnv)
    (api : Int → Except PyError Club) (now : Int) (s : StravaData)
    (hcond : throttleAllows h.last_update now = true) :
    (h.update tenv api now s).ran = true ∧
    (h.update tenv api now s).holder.last_update = some now := by
  cases hgt : s.get_token tenv with
  | error e => simp [StravaClubData.update, hcond, hgt]
  | ok r => cases hapi : api h.id <;> simp [StravaClubData.update, hcond, hgt, hapi]

/-- C4: for each holder kind, two `update()` calls on the same holder whose
start times are less than the 10-second window apart issue at most one
underlying fetch, and a suppressed call changes neither the holder nor the
session. The throttle itself is modelled from the spec, since
`homeassistant.util.Throttle` is not under src/. -/
theorem c4_throttle_at_most_one_fetch
    (tenv1 tenv2 : TokenEnv) (fenv1 fenv2 : AthleteFetchEnv)
    (gapi1 gapi2 : Int → Except PyError Gear) (capi1 capi2 : Int → Except PyError Club)
    (t1 t2 : Int) (sa sg sc : StravaData)
    (ha : StravaAthleteData) (hg : StravaGearData) (hc : StravaClubData)
    (hwin : t2 < t1 + MIN_TIME_BETWEEN_UPDATES) :
    (((ha.update tenv1 fenv1 t1 sa).fetched = false ∨
        ((ha.update tenv1 fenv1 t1 sa).holder.update tenv2 fenv2 t2
          (ha.update tenv1 fenv1 t1 sa).session).fetched = false) ∧
      ((ha.update tenv1 fenv1 t1 sa).ran = false →
        (ha.update tenv1 fenv1 t1 sa).holder = ha ∧
        (ha.update tenv1 fenv1 t1 sa).session = sa) ∧
      (((ha.update tenv1 fenv1 t1 sa).holder.update tenv2 fenv2 t2
          (ha.update tenv1 fenv1 t1 sa).session).ran = false →
        ((ha.update tenv1 fenv1 t1 sa).holder.update tenv2 fenv2 t2
          (ha.update tenv1 fenv1 t1 sa).session).holder = (ha.update tenv1 fenv1 t1 sa).holder ∧
        ((ha.update tenv1 fenv1 t1 sa).holder.update tenv2 fenv2 t2
          (ha.update tenv1 fenv1 t1 sa).session).session = (ha.update tenv1 fenv1 t1 sa).session)) ∧
    (((hg.update tenv1 gapi1 t1 sg).fetched = false ∨
        ((hg.update tenv1 gapi1 t1 sg).holder.update tenv2 gapi2 t2
          (hg.update tenv1 gapi1 t1 sg).session).fetched = false) ∧
      ((hg.update tenv1 gapi1 t1 sg).ran = false →
        (hg.update tenv1 gapi1 t1 sg).holder = hg ∧
        (hg.update tenv1 gapi1 t1 sg).session = sg) ∧
      (((hg.update tenv1 gapi1 t1 sg).holder.update tenv2 gapi2 t2
          (hg.update tenv1 gapi1 t1 sg).session).ran = false →
        ((hg.update tenv1 gapi1 t1 sg).holder.update tenv2 gapi2 t2
          (hg.update tenv1 gapi1 t1 sg).session).holder = (hg.update tenv1 gapi1 t1 sg).holder ∧
        ((hg.update tenv1 gapi1 t1 sg).holder.update tenv2 gapi2 t2
          (hg.update tenv1 gapi1 t1 sg).session).session = (hg.update tenv1 gapi1 t1 sg).session)) ∧
    (((hc.update tenv1 capi1 t1 sc).fetched = false ∨
        ((hc.update tenv1 capi1 t1 sc).holder.update tenv2 capi2 t2
          (hc.update tenv1 capi1 t1 sc).session).fetched = false) ∧
      ((hc.update tenv1 capi1 t1 sc).ran = false →
        (hc.update tenv1 capi1 t1 sc).holder = hc ∧
        (hc.update tenv1 capi1 t1 sc).session = sc) ∧
      (((hc.update tenv1 capi1 t1 sc).holder.update tenv2 capi2 t2
          (hc.update tenv1 capi1 t1 sc).session).ran = false →
        ((hc.update tenv1 capi1 t1 sc).holder.update tenv2 capi2 t2
          (hc.update tenv1 capi1 t1 sc).session).holder = (hc.update tenv1 capi1 t1 sc).holder ∧
        ((hc.update tenv1 capi1 t1 sc).holder.update tenv2 capi2 t2
          (hc.update tenv1 capi1 t1 sc).session).session = (hc.update tenv1 capi1 t1 sc).session)) := by
  refine ⟨?_, ?_, ?_⟩
  · by_cases h1 : throttleAllows ha.last_update t1
    · obtain ⟨hran, hlu⟩ := athlete_update_ran ha tenv1 fenv1 t1 sa h1
      have h2 : throttleAllows (ha.update tenv1 fenv1 t1 sa).holder.last_update t2 = false := by
        rw [hlu]
        exact throttleAllows_within t1 t2 hwin
      have e2 := athlete_update_suppressed (ha.update tenv1 fenv1 t1 sa).holder tenv2 fenv2 t2
        (ha.update tenv1 fenv1 t1 sa).session h2
      refine ⟨Or.inr (by simp [e2]), fun hr => ?_, fun _ => by simp [e2]⟩
      simp [hran] at hr
    · have hfalse : throttleAllows ha.last_update t1 = false := by
        simpa using h1
      have e1 := athlete_update_suppressed ha tenv1 fenv1 t1 sa hfalse
      refine ⟨Or.inl (by simp [e1]), fun _ => by simp [e1], ?_⟩
      intro hr2
      by_cases h2 : throttleAllows ha.last_update t2
      · obtain ⟨hran2, _⟩ := athlete_update_ran ha tenv2 fenv2 t2 sa h2
        simp [e1, hran2] at hr2
      · have hf2 : throttleAllows ha.last_update t2 = false := by
          simpa using h2
        have e2 := athlete_update_suppressed ha tenv2 fenv2 t2 sa hf2
        simp [e1, e2]
  · by_cases h1 : throttleAllows hg.last_update t1
    · obtain ⟨hran, hlu⟩ := gear_update_ran hg tenv1 gapi1 t1 sg h1
      have h2 : throttleAllows (hg.update tenv1 gapi1 t1 sg).holder.last_update t2 = false := by
        rw [hlu]
        exact throttleAllows_within t1 t2 hwin
      have e2 := gear_update_suppressed (hg.update tenv1 gapi1 t1 sg).holder tenv2 gapi2 t2
        (hg.update tenv1 gapi1 t1 sg).session h2
      refine ⟨Or.inr (by simp [e2]), fun hr => ?_, fun _ => by simp [e2]⟩
      simp [hran] at hr
    · have hfalse : throttleAllows hg.last_update t1 = false := by
        simpa using h1
      have e1 := gear_update_suppressed hg tenv1 gapi1 t1 sg hfalse
      refine ⟨Or.inl (by simp [e1]), fun _ => by simp [e1], ?_⟩
      intro hr2
      by_cases h2 : throttleAllows hg.last_update t2
      · obtain ⟨hran2, _⟩ := gear_update_ran hg tenv2 gapi2 t2 sg h2
        simp [e1, hran2] at hr2
      · have hf2 : throttleAllows hg.last_update t2 = false := by
          simpa using h2
        have e2 := gear_update_suppressed hg tenv2 gapi2 t2 sg hf2
        simp [e1, e2]
  · by_cases h1 : throttleAllows hc.last_update t1
    · obtain ⟨hran, hlu⟩ := club_update_ran hc tenv1 capi1 t1 sc h1
      have h2 : throttleAllows (hc.update tenv1 capi1 t1 sc).holder.last_update t2 = false := by
        rw [hlu]
        exact throttleAllows_within t1 t2 hwin
      have e2 := club_update_suppressed (hc.update tenv1 capi1 t1 sc).holder tenv2 capi2 t2
        (hc.update tenv1 capi1 t1 sc).session h2
      refine ⟨Or.inr (by simp [e2]), fun hr => ?_, fun _ => by simp [e2]⟩
      simp [hran] at hr
    · have hfalse : throttleAllows hc.last_update t1 = false := by
        simpa using h1
      have e1 := club_update_suppressed hc tenv1 capi1 t1 sc hfalse
      refine ⟨Or.inl (by simp [e1]), fun _ => by simp [e1], ?_⟩
      intro hr2
      by_cases h2 : throttleAllows hc.last_update t2
      · obtain ⟨hran2, _⟩ := club_update_ran hc tenv2 capi2 t2 sc h2
        simp [e1, hran2] at hr2
      · have hf2 : throttleAllows hc.last_update t2 = false := by
          simpa using h2
        have e2 := club_update_suppressed hc tenv2 capi2 t2 sc hf2
        simp [e1, e2]

/-- C4 witness: two gear updates at times 0 and 5 on a fresh holder; the
second call issues no fetch. -/
theorem c4_throttle_at_most_one_fetch_witness :
    ((⟨3, none, none⟩ : StravaGearData).update ⟨none, 0, "u", fun _ _ _ => ⟨"n", "n", 99⟩⟩ (fun k => .ok ⟨k⟩) 0 ({ StravaData.init "abc" "xyz" with token := some ⟨"a", "r", 50⟩ })).fetched = false ∨
    (((⟨3, none, none⟩ : StravaGearData).update ⟨none, 0, "u", fun _ _ _ => ⟨"n", "n", 99⟩⟩ (fun k => .ok ⟨k⟩) 0 ({ StravaData.init "abc" "xyz" with token := some ⟨"a", "r", 50⟩ })).holder.update ⟨none, 5, "u", fun _ _ _ => ⟨"n", "n", 99⟩⟩ (fun k => .ok ⟨k⟩) 5 ((⟨3, none, none⟩ : StravaGearData).update ⟨none, 0, "u", fun _ _ _ => ⟨"n", "n", 99⟩⟩ (fun k => .ok ⟨k⟩) 0 ({ StravaData.init "abc" "xyz" with token := some ⟨"a", "r", 50⟩ })).session).fetched = false :=
  (c4_throttle_at_most_one_fetch
    ⟨none, 0, "u", fun _ _ _ => ⟨"n", "n", 99⟩⟩ ⟨none, 5, "u", fun _ _ _ => ⟨"n", "n", 99⟩⟩
    ⟨.ok [], fun k => .ok ⟨k⟩, fun k => .ok ⟨k⟩, fun k => .ok ⟨k⟩⟩
    ⟨.ok [], fun k => .ok ⟨k⟩, fun k => .ok ⟨k⟩, fun k => .ok ⟨k⟩⟩
    (fun k => .ok ⟨k⟩) (fun k => .ok ⟨k⟩) (fun k => .ok ⟨k⟩) (fun k => .ok ⟨k⟩)
    0 5 ({ StravaData.init "abc" "xyz" with token := some ⟨"a", "r", 50⟩ })
    ({ StravaData.init "abc" "xyz" with token := some ⟨"a", "r", 50⟩ })
    ({ StravaData.init "abc" "xyz" with token := some ⟨"a", "r", 50⟩ })
    ⟨7, none, none, none, none⟩ ⟨3, none, none⟩ ⟨4, none, none⟩
    (by decide)).2.1.1

/-- C1 counterexample: with a valid token, a failing last-activity fetch
and succeeding details/stats fetches, `update()` fails but overwrites
`details` and `stats` while `last_activity` keeps its previous value — so
a failed update does not leave all three cached fields unchanged. -/
theorem c1_fanout_not_atomic_counterexample :
    ¬ (((⟨7, none, none, none, none⟩ : StravaAthleteData).update ⟨none, 100, "u", fun _ _ _ => ⟨"n", "n", 999⟩⟩ ⟨.error .typeError, fun k => .ok ⟨k⟩, fun k => .ok ⟨k⟩, fun k => .ok ⟨k⟩⟩ 100 ({ StravaData.init "abc" "xyz" with token := some ⟨"a", "r", 1000⟩ })).error.isSome = true →
      ((⟨7, none, none, none, none⟩ : StravaAthleteData).update ⟨none, 100, "u", fun _ _ _ => ⟨"n", "n", 999⟩⟩ ⟨.error .typeError, fun k => .ok ⟨k⟩, fun k => .ok ⟨k⟩, fun k => .ok ⟨k⟩⟩ 100 ({ StravaData.init "abc" "xyz" with token := some ⟨"a", "r", 1000⟩ })).holder.details = none ∧
      ((⟨7, none, none, none, none⟩ : StravaAthleteData).update ⟨none, 100, "u", fun _ _ _ => ⟨"n", "n", 999⟩⟩ ⟨.error .typeError, fun k => .ok ⟨k⟩, fun k => .ok ⟨k⟩, fun k => .ok ⟨k⟩⟩ 100 ({ StravaData.init "abc" "xyz" with token := some ⟨"a", "r", 1000⟩ })).holder.stats = none ∧
      ((⟨7, none, none, none, none⟩ : StravaAthleteData).update ⟨none, 100, "u", fun _ _ _ => ⟨"n", "n", 999⟩⟩ ⟨.error .typeError, fun k => .ok ⟨k⟩, fun k => .ok ⟨k⟩, fun k => .ok ⟨k⟩⟩ 100 ({ StravaData.init "abc" "xyz" with token := some ⟨"a", "r", 1000⟩ })).holder.last_activity = none) := by
  decide

/-- C1 amended: the athlete fan-out is per-field, not atomic — the whole
update fails as soon as any sub-fetch fails, but each sub-fetch that
succeeds still overwrites its own cached field, and only a failing
sub-fetch's field keeps its previous value. -/
theorem c1_fanout_per_field (env : AthleteFetchEnv) (h : StravaAthleteData) :
    ((h.update_gather env).snd = none ↔
      exceptOk (get_last_activity env) = true ∧ exceptOk (env.get_athlete h.id) = true ∧
        exceptOk (env.get_athlete_stats h.id) = true) ∧
    (h.update_gather env).fst.last_activity =
      (match get_last_activity env with | .ok v => some v | .error _ => h.last_activity) ∧
    (h.update_gather env).fst.details =
      (match env.get_athlete h.id with | .ok v => some v | .error _ => h.details) ∧
    (h.update_gather env).fst.stats =
      (match env.get_athlete_stats h.id with | .ok v => some v | .error _ => h.stats) := by
  cases h1 : get_last_activity env <;> cases h2 : env.get_athlete h.id <;>
    cases h3 : env.get_athlete_stats h.id <;>
      simp [StravaAthleteData.update_gather, StravaAthleteData.update_last_actitivity,
        StravaAthleteData.update_details, StravaAthleteData.update_stats, h1, h2, h3,
        exceptOk]

/-- C10: when the athlete has zero activities, `next()` on the empty
activity iterator raises `StopIteration`, so the whole `update()` call
fails even with a held token and all network calls succeeding. -/
theorem c10_zero_activities_fails_update (tenv : TokenEnv) (fenv : AthleteFetchEnv)
    (now : Int) (s : StravaData) (h : StravaAthleteData) (tok : Token)
    (hacts : fenv.get_activities = .ok [])
    (htok : s.token = some tok)
    (hrun : throttleAllows h.last_update now = true) :
    get_last_activity fenv = .error .stopIteration ∧
    (h.update tenv fenv now s).error.isSome = true := by
  have hlast : get_last_activity fenv = .error .stopIteration := by
    simp [get_last_activity, hacts]
  refine ⟨hlast, ?_⟩
  have hga : s.get_token tenv = s.check_expiry tenv := by
    simp [StravaData.get_token, StravaData.is_authorized, htok]
  obtain ⟨r, heq, _⟩ := check_expiry_spec s tenv tok htok
  simp [StravaAthleteData.update, hrun, hga, heq, StravaAthleteData.update_gather,
    StravaAthleteData.update_last_actitivity, hlast, Option.orElse]

/-- C10 witness: a concrete athlete with zero activities and a fresh
holder: the update fails. -/
theorem c10_zero_activities_fails_update_witness :
    get_last_activity ⟨.ok [], fun k => .ok ⟨k⟩, fun k => .ok ⟨k⟩, fun k => .ok ⟨k⟩⟩ = .error .stopIteration ∧
    ((⟨7, none, none, none, none⟩ : StravaAthleteData).update ⟨none, 100, "u", fun _ _ _ => ⟨"n", "n", 999⟩⟩ ⟨.ok [], fun k => .ok ⟨k⟩, fun k => .ok ⟨k⟩, fun k => .ok ⟨k⟩⟩ 100 ({ StravaData.init "abc" "xyz" with token := some ⟨"a", "r", 1000⟩ })).error.isSome = true :=
  c10_zero_activities_fails_update ⟨none, 100, "u", fun _ _ _ => ⟨"n", "n", 999⟩⟩
    ⟨.ok [], fun k => .ok ⟨k⟩, fun k => .ok ⟨k⟩, fun k => .ok ⟨k⟩⟩ 100
    ({ StravaData.init "abc" "xyz" with token := some ⟨"a", "r", 1000⟩ })
    ⟨7, none, none, none, none⟩ ⟨"a", "r", 1000⟩ rfl rfl rfl

end Strava
